import Mathlib

/-!
Verification of the Travel backend's hotel pipeline
(`Backend/api/filter_data.py` and `Backend/hotels.py`) against its
natural-language specification.

The Python code is shallowly embedded: JSON values become the inductive
type `Json`; Python's fallible operations (`in`, indexing, `.get`,
`" ".join`, `.lower()`, iteration) become `Except PyExc`-valued functions
mirroring CPython semantics on those values; the tenacity retry decorator
becomes the combinator `tenacityRetry`.
-/

/-- JSON values as produced by `json.load` / `response.json()`.
Numbers are modelled as integers (all numbers relevant to the claims are
integral); object keys are unique, as `json.load` collapses duplicates. -/
inductive Json where
  | null : Json
  | bool (b : Bool) : Json
  | num (n : Int) : Json
  | str (s : String) : Json
  | arr (xs : List Json) : Json
  | obj (fields : List (String × Json)) : Json

/-- Python exceptions that the embedded code can raise. -/
inductive PyExc where
  | typeError (msg : String) : PyExc
  | keyError (key : String) : PyExc
  | attributeError (msg : String) : PyExc
  | fileNotFoundError (path : String) : PyExc
  | httpStatusError (status : Nat) (body : Json) : PyExc
  | httpException (status : Nat) (detail : String) : PyExc
  | retryError (inner : PyExc) : PyExc

/-- Whether the character list `n` matches the front of `h`
(Python `h.startswith(n)` on character lists). -/
def headMatches : List Char → List Char → Bool
  | [], _ => true
  | _ :: _, [] => false
  | a :: as, b :: bs => a == b && headMatches as bs

/-- Whether `n` occurs as a contiguous run inside `h`. -/
def charsSub (n : List Char) : List Char → Bool
  | [] => headMatches n []
  | c :: t => headMatches n (c :: t) || charsSub n t

/-- Python substring test `needle in hay` on strings. -/
def strContains (hay needle : String) : Bool :=
  charsSub needle.data hay.data

/-- Python `str.lower()`; the strings compared by the code are ASCII,
where `Char.toLower` agrees with CPython. -/
def lowerStr (s : String) : String :=
  ⟨s.data.map Char.toLower⟩

/-- Python truthiness of a JSON value (`bool(x)`). -/
def pyTruthy : Json → Bool
  | .null => false
  | .bool b => b
  | .num n => n != 0
  | .str s => s != ""
  | .arr xs => !xs.isEmpty
  | .obj fs => !fs.isEmpty

/-- Python `x == n` for an integer literal `n`: only numbers (and bools,
which are ints in Python) compare equal to an int; other types are unequal
rather than erroring. -/
def pyEqInt (j : Json) (n : Int) : Bool :=
  match j with
  | .num m => m == n
  | .bool b => (if b then (1 : Int) else 0) == n
  | _ => false

/-- Python membership `needle in container` for a string `needle`:
substring test on a str, element equality on a list, key membership on a
dict; `in` on numbers, booleans or `None` raises TypeError. -/
def pyContains (needle : String) : Json → Except PyExc Bool
  | .str s => .ok (strContains s needle)
  | .arr xs => .ok (xs.any (fun x => match x with | .str s => s == needle | _ => false))
  | .obj fs => .ok (fs.lookup needle).isSome
  | _ => .error (.typeError "argument of type is not iterable")

/-- Python subscript `container[key]` for a string key: dict lookup
(KeyError when absent); strings and lists demand integer indices; other
values are not subscriptable. -/
def pyIndex (container : Json) (key : String) : Except PyExc Json :=
  match container with
  | .obj fs =>
    match fs.lookup key with
    | some v => .ok v
    | none => .error (.keyError key)
  | .str _ => .error (.typeError "string indices must be integers")
  | .arr _ => .error (.typeError "list indices must be integers")
  | _ => .error (.typeError "object is not subscriptable")

/-- Python `container.get(key, default)`: only dicts have `.get`. -/
def pyGet (container : Json) (key : String) (default : Json) : Except PyExc Json :=
  match container with
  | .obj fs => .ok ((fs.lookup key).getD default)
  | _ => .error (.attributeError "object has no attribute get")

/-- Python iteration `for x in j`: lists yield elements, strings yield
one-character strings, dicts yield their keys; other values raise. -/
def pyIter : Json → Except PyExc (List Json)
  | .arr xs => .ok xs
  | .str s => .ok (s.data.map (fun c => Json.str ⟨[c]⟩))
  | .obj fs => .ok (fs.map (fun p => Json.str p.1))
  | _ => .error (.typeError "object is not iterable")

/-- Separator-joined concatenation of strings (`sep.join(list)`). -/
def joinSep (sep : String) : List String → String
  | [] => ""
  | [x] => x
  | x :: y :: t => x ++ sep ++ joinSep sep (y :: t)

/-- Collects a list of JSON values that must all be strings, as
`str.join` demands; a non-string item raises TypeError. -/
def asStrings : List Json → Except PyExc (List String)
  | [] => .ok []
  | .str s :: t => do pure (s :: (← asStrings t))
  | _ :: _ => .error (.typeError "sequence item: expected str instance")

/-- Python `sep.join(j)`: joins a list of strings; joining a string joins
its characters; joining a dict joins its keys; else TypeError. -/
def pyJoin (sep : String) : Json → Except PyExc String
  | .arr xs => do pure (joinSep sep (← asStrings xs))
  | .str s => .ok (joinSep sep (s.data.map (fun c => String.mk [c])))
  | .obj fs => .ok (joinSep sep (fs.map (fun p => p.1)))
  | _ => .error (.typeError "can only join an iterable")

/-- Python `j.lower()`: only strings have `.lower`. -/
def pyLower : Json → Except PyExc String
  | .str s => .ok (lowerStr s)
  | _ => .error (.attributeError "object has no attribute lower")

/-- Lazy Python `any(word in j for word in words)`: membership is tested
word by word, stopping at the first hit; an unsupported container type
raises on the first test. -/
def pyAnyContains : List String → Json → Except PyExc Bool
  | [], _ => .ok false
  | w :: ws, j => do
    if (← pyContains w j) then pure true else pyAnyContains ws j

/-- Forbidden substrings checked against the hotel name
(`filter_data.py` line 41). -/
def forbidden_name_words : List String := ["TEST", "PROPERTY", "VALIDATION"]

/-- Forbidden substrings checked against the joined address lines
(`filter_data.py` line 44). -/
def forbidden_address_words : List String := ["TEST", "ADDRESS"]

/-- Per-record predicate of `filter_json` (`filter_data.py` lines 38-49):
computes `has_name`, `has_address`, `no_forbidden_name`,
`no_forbidden_address` and `not_house_of_travel` exactly as the Python
does (same evaluation order and short-circuits, so the same exceptions
escape) and returns their conjunction. -/
def keepHotel (hotel : Json) : Except PyExc Bool := do
  let has_name ← pyContains "name" hotel
  let has_address ←
    if (← pyContains "address" hotel) then do
      pyContains "lines" (← pyIndex hotel "address")
    else pure false
  let no_forbidden_name ←
    if has_name then do
      pure (!(← pyAnyContains forbidden_name_words (← pyIndex hotel "name")))
    else pure false
  let no_forbidden_address ←
    if has_address then do
      let joined ← pyJoin " " (← pyIndex (← pyIndex hotel "address") "lines")
      pure (!(forbidden_address_words.any (fun w => strContains joined w)))
    else pure false
  let not_house_of_travel ←
    if has_name then do
      pure (!(strContains (← pyLower (← pyIndex hotel "name")) "house of travel"))
    else pure false
  pure (has_name && has_address && no_forbidden_name && no_forbidden_address
    && not_house_of_travel)

/-- The loop of `filter_json` (lines 37-52): each record goes to the kept
list when `keepHotel` holds, to the neglected list otherwise, preserving
input order; an exception from `keepHotel` propagates. -/
def filterRecords : List Json → Except PyExc (List Json × List Json)
  | [] => .ok ([], [])
  | h :: t => do
    let b ← keepHotel h
    let (ks, ns) ← filterRecords t
    if b then pure (h :: ks, ns) else pure (ks, h :: ns)

/-- The output envelope skeleton with a given `data` list
(`json_schema` of `filter_data.py` lines 20-27, after appending). -/
def mkSchema (data : List Json) : Json :=
  .obj [("status", .num 200), ("response", .obj [("data", .arr data)])]

/-- The pristine `json_schema` template of `filter_data.py`. -/
def json_schema : Json := mkSchema []

/-- The test `data_json.get("status") == 200` of `filter_data.py`
line 34. -/
def envStatusIs200 (data_json : Json) : Except PyExc Bool := do
  pure (pyEqInt (← pyGet data_json "status" .null) 200)

/-- The extraction `data_json.get("response", {}).get("data", [])`
followed by iteration (`filter_data.py` lines 35 and 37). -/
def envData (data_json : Json) : Except PyExc (List Json) := do
  pyIter (← pyGet (← pyGet data_json "response" (.obj [])) "data" (.arr []))

/-- The observable result of `filter_json` (`filter_data.py` lines 16-61)
on the parsed content of its input file: the pair
`(filtered_data, neglected_data)` that the function writes to
`filtered.json` and `neglected.json`. The Python function performs this
file I/O as a side effect and returns `None`; an exception raised during
filtering propagates before anything is written. -/
def filter_json (data_json : Json) : Except PyExc (Json × Json) := do
  if (← envStatusIs200 data_json) then
    let hotels ← envData data_json
    let (ks, ns) ← filterRecords hotels
    pure (mkSchema ks, mkSchema ns)
  else
    pure (json_schema, json_schema)

/-- An upstream HTTP response as seen through httpx: its status code and
its body already parsed as JSON (`response.json()`). -/
structure HTTPResponse where
  status_code : Nat
  body : Json

/-- The retry predicate `retry_if_exception_type(httpx.HTTPStatusError)`
used by both decorators in `hotels.py`. -/
def isRetryableExc : PyExc → Bool
  | .httpStatusError _ _ => true
  | _ => false

/-- Tenacity's attempt loop: run attempt `k`; a success returns; a
non-retryable exception is re-raised at once; a retryable one is retried
while fuel remains, and once the stop condition is reached tenacity
raises `RetryError` wrapping the last exception (the default
`reraise=False`). The pair also reports the number of attempts made. -/
def tenacityGo {α : Type} (attempt : Nat → Except PyExc α) :
    Nat → Nat → Except PyExc α × Nat
  | fuel, k =>
    match attempt k with
    | .ok a => (.ok a, k)
    | .error e =>
      if isRetryableExc e then
        match fuel with
        | 0 => (.error (.retryError e), k)
        | fuel' + 1 => tenacityGo attempt fuel' (k + 1)
      else (.error e, k)

/-- The decorator `@retry(stop=stop_after_attempt(3),
wait=wait_exponential(multiplier=1, min=2, max=10),
retry=retry_if_exception_type(httpx.HTTPStatusError))`: at most 3
attempts (the waits between retries do not affect the returned value). -/
def tenacityRetry {α : Type} (attempt : Nat → Except PyExc α) :
    Except PyExc α × Nat :=
  tenacityGo attempt 2 1

/-- The module-level token cache `_token_cache` of `hotels.py` line 60:
`token` starts as Python `None` (here `Json.null`) and `expires_at` as
`None` (here `none`). -/
structure TokenCache where
  token : Json
  expires_at : Option Int

/-- The initial `_token_cache = {"token": None, "expires_at": None}`. -/
def emptyTokenCache : TokenCache := ⟨.null, none⟩

/-- Seconds argument accepted by `timedelta(seconds=x - 60)`: the value
read for `expires_in` must be a number (Python bools are ints). -/
def pyToSeconds : Json → Except PyExc Int
  | .num n => .ok n
  | .bool b => .ok (if b then 1 else 0)
  | _ => .error (.typeError "unsupported operand type for seconds")

/-- The network branch of `get_access_token` (`hotels.py` lines 85-105):
POST the credentials; on a non-200 status raise
`HTTPException(status_code, "Failed to get access token")`; on 200 store
`access_token` and expiry `now + expires_in - 60` in the cache and
return the token. The result carries the new cache and the number of
token requests issued (always 1 on this path). -/
def fetchToken (now : Int) (resp : HTTPResponse) :
    Except PyExc (Json × TokenCache × Nat) :=
  if resp.status_code ≠ 200 then
    .error (.httpException resp.status_code "Failed to get access token")
  else do
    let tok ← pyIndex resp.body "access_token"
    let expiresIn ← pyGet resp.body "expires_in" (.num 1800)
    let secs ← pyToSeconds expiresIn
    .ok (tok, ⟨tok, some (now + (secs - 60))⟩, 1)

/-- One call of the body of `get_access_token` (`hotels.py` lines 67-105)
given the current cache, the current time `now` (`datetime.now()`, as an
integer timestamp), and the upstream identity response the POST would
receive. Returns the token, the cache afterwards, and how many token
requests were issued (0 on the cached path). The guard mirrors
`if _token_cache["token"] and _token_cache["expires_at"] > now` with
Python truthiness and short-circuiting. -/
def get_access_token_once (cache : TokenCache) (now : Int)
    (resp : HTTPResponse) : Except PyExc (Json × TokenCache × Nat) :=
  if pyTruthy cache.token then
    match cache.expires_at with
    | some e =>
      if now < e then .ok (cache.token, cache, 0)
      else fetchToken now resp
    | none => .error (.typeError "not supported between instances of NoneType and datetime")
  else fetchToken now resp

/-- The decorated `get_access_token`: the tenacity policy wrapped around
the body, with `resps k` the identity-endpoint response of attempt `k`. -/
def get_access_token_retried (cache : TokenCache) (now : Int)
    (resps : Nat → HTTPResponse) : Except PyExc (Json × TokenCache × Nat) × Nat :=
  tenacityRetry (fun k => get_access_token_once cache now (resps k))

/-- Effect of `open(file, "r")` on the argument that
`list_hotels_helper` passes to `filter_json`: `open` demands a
str/bytes/PathLike path, so the parsed JSON dict raises TypeError; a
JSON string body would be treated as a path, which does not exist in
this model (and even a successful `filter_json` call returns `None`,
never the filtered data). -/
def openAsFile (arg : Json) : PyExc :=
  match arg with
  | .str p => .fileNotFoundError p
  | _ => .typeError "expected str, bytes or os.PathLike object, not dict"

/-- The title returned for 400/404 searches (`hotels.py` line 146). -/
def noHotelsTitle : String := "NO HOTELS FOUND FOR REQUESTED LOCATION"

/-- One call of the body of `list_hotels_helper` (`hotels.py` lines
131-149) on the upstream search response: status 200 parses the body and
calls `filter_json(data)` — which opens its argument as a file and so
raises; 400/404 return the fixed empty-result envelope; any other status
reaches `response.raise_for_status()`, which raises
`httpx.HTTPStatusError` for statuses outside 200-299 and otherwise
returns, letting the function fall through and return `None`. -/
def list_hotels_helper_once (resp : HTTPResponse) :
    Except PyExc (Option Json) :=
  if resp.status_code = 200 then
    .error (openAsFile resp.body)
  else if resp.status_code = 400 ∨ resp.status_code = 404 then
    .ok (some (.obj [("status", .num resp.status_code),
      ("response", .obj [("title", .str noHotelsTitle)])]))
  else if 200 ≤ resp.status_code ∧ resp.status_code ≤ 299 then
    .ok none
  else
    .error (.httpStatusError resp.status_code resp.body)

/-- The decorated `list_hotels_helper`, with `resps k` the upstream
search response of attempt `k`. -/
def list_hotels_helper_retried (resps : Nat → HTTPResponse) :
    Except PyExc (Option Json) × Nat :=
  tenacityRetry (fun k => list_hotels_helper_once (resps k))

/-- Boolean projection of `keepHotel`: `true` exactly when the record is
appended to the filtered list (an exception never reaches the append). -/
def keepB (h : Json) : Bool :=
  match keepHotel h with
  | .ok b => b
  | .error _ => false

/-- Records on which every operation used by `keepHotel` is well typed:
the record is a dict whose `name`, if present, is a string, and whose
`address`, if present, is a dict whose `lines`, if present, is a list of
strings. -/
def wellTypedRecord (h : Json) : Bool :=
  match h with
  | .obj fs =>
    (match fs.lookup "name" with
     | none => true
     | some (.str _) => true
     | some _ => false) &&
    (match fs.lookup "address" with
     | none => true
     | some (.obj afs) =>
       (match afs.lookup "lines" with
        | none => true
        | some (.arr ls) => ls.all (fun x => match x with | .str _ => true | _ => false)
        | some _ => false)
     | some _ => false)
  | _ => false

/-- The first record of the spec's worked example: a hotel named
"Test Hotel" with address line "1 Main St". -/
def testHotelRecord : Json :=
  .obj [("name", .str "Test Hotel"),
        ("address", .obj [("lines", .arr [.str "1 Main St"])])]

/-- The second record of the spec's worked example. -/
def grandPlazaRecord : Json :=
  .obj [("name", .str "Grand Plaza"),
        ("address", .obj [("lines", .arr [.str "5 King St"])])]

/-- The spec's worked example wrapped in the envelope shape that
`filter_json` actually reads (`status` 200, records under
`response.data`). -/
def envSpecExample : Json :=
  .obj [("status", .num 200),
        ("response", .obj [("data", .arr [testHotelRecord, grandPlazaRecord])])]

/-- A status-200 envelope carrying an extra top-level field. -/
def envExtraField : Json :=
  .obj [("status", .num 200), ("extra", .num 1),
        ("response", .obj [("data", .arr [])])]

/-- A record whose address lines hold a number instead of a string. -/
def badLineRecord : Json :=
  .obj [("name", .str "A"), ("address", .obj [("lines", .arr [.num 1])])]

/-- A status-200 envelope containing `badLineRecord`. -/
def envBadLine : Json :=
  .obj [("status", .num 200),
        ("response", .obj [("data", .arr [badLineRecord])])]

/-- A token cache holding the token "tok" valid until time 100. -/
def validCacheExample : TokenCache := ⟨.str "tok", some 100⟩

/-- A successful identity-endpoint response delivering the token "fresh"
with `expires_in` 1799. -/
def tokenRespExample : HTTPResponse :=
  ⟨200, .obj [("access_token", .str "fresh"), ("expires_in", .num 1799)]⟩

@[simp]
theorem pyBind_ok {α β : Type} (a : α) (f : α → Except PyExc β) :
    ((.ok a : Except PyExc α) >>= f) = f a := rfl

@[simp]
theorem pyBind_error {α β : Type} (e : PyExc) (f : α → Except PyExc β) :
    ((.error e : Except PyExc α) >>= f) = .error e := rfl

@[simp]
theorem pyPure_eq {α : Type} (a : α) : (pure a : Except PyExc α) = .ok a := rfl

theorem keepB_eq_true {h : Json} : keepB h = true ↔ keepHotel h = .ok true := by
  unfold keepB
  cases hk : keepHotel h with
  | ok b => cases b <;> simp
  | error e => simp

theorem asStrings_of_all_str (ls : List Json)
    (h : ls.all (fun x => match x with | .str _ => true | _ => false) = true) :
    ∃ ss : List String, ls = ss.map Json.str ∧ asStrings ls = .ok ss := by
  induction ls with
  | nil => exact ⟨[], rfl, rfl⟩
  | cons a t ih =>
    simp only [List.all_cons, Bool.and_eq_true] at h
    obtain ⟨ha, ht⟩ := h
    obtain ⟨ss, hss, hok⟩ := ih ht
    cases a with
    | str s =>
      refine ⟨s :: ss, by simp [hss], ?_⟩
      simp [asStrings, hok]
    | null => simp at ha
    | bool b => simp at ha
    | num n => simp at ha
    | arr xs => simp at ha
    | obj fs => simp at ha

theorem pyAnyContains_str (ws : List String) (s : String) :
    pyAnyContains ws (.str s) = .ok (ws.any (fun w => strContains s w)) := by
  induction ws with
  | nil => rfl
  | cons w ws ih =>
    simp only [pyAnyContains, pyContains, List.any_cons]
    cases hw : strContains s w <;> simp [hw, ih]

theorem filterRecords_ok (hs : List Json) :
    ∀ ks ns, filterRecords hs = .ok (ks, ns) →
      ks = hs.filter keepB ∧ ns = hs.filter (fun h => !keepB h) := by
  induction hs with
  | nil =>
    intro ks ns h
    simp only [filterRecords] at h
    cases h
    simp
  | cons a t ih =>
    intro ks ns h
    simp only [filterRecords] at h
    cases hk : keepHotel a with
    | error e => rw [hk] at h; simp at h
    | ok b =>
      rw [hk] at h
      simp only [pyBind_ok] at h
      cases hr : filterRecords t with
      | error e => rw [hr] at h; simp at h
      | ok p =>
        obtain ⟨ks', ns'⟩ := p
        rw [hr] at h
        simp only [pyBind_ok] at h
        obtain ⟨iht1, iht2⟩ := ih ks' ns' hr
        have hkb : keepB a = b := by simp [keepB, hk]
        cases b with
        | true =>
          simp at h
          obtain ⟨h1, h2⟩ := h
          subst h1
          subst h2
          simp [List.filter_cons, hkb, iht1, iht2]
        | false =>
          simp at h
          obtain ⟨h1, h2⟩ := h
          subst h1
          subst h2
          simp [List.filter_cons, hkb, iht1, iht2]

theorem filterRecords_all_kept (l : List Json)
    (h : ∀ x ∈ l, keepHotel x = .ok true) :
    filterRecords l = .ok (l, []) := by
  induction l with
  | nil => rfl
  | cons a t ih =>
    have ha : keepHotel a = .ok true := h a (by simp)
    have ht : filterRecords t = .ok (t, []) := ih (fun x hx => h x (by simp [hx]))
    simp [filterRecords, ha, ht]

theorem filter_json_200 (env : Json) (hs : List Json)
    (h200 : envStatusIs200 env = .ok true) (hd : envData env = .ok hs) :
    filter_json env =
      (filterRecords hs).bind (fun p => .ok (mkSchema p.1, mkSchema p.2)) := by
  unfold filter_json
  rw [h200]
  simp only [pyBind_ok, if_true, hd]
  cases hr : filterRecords hs with
  | error e => simp [Except.bind]
  | ok p => simp [Except.bind]

theorem filter_json_not200 (env : Json)
    (h200 : envStatusIs200 env = .ok false) :
    filter_json env = .ok (json_schema, json_schema) := by
  unfold filter_json
  rw [h200]
  simp

theorem filter_json_mkSchema (l a b : List Json)
    (h : filterRecords l = .ok (a, b)) :
    filter_json (mkSchema l) = .ok (mkSchema a, mkSchema b) := by
  have h200 : envStatusIs200 (mkSchema l) = .ok true := rfl
  have hd : envData (mkSchema l) = .ok l := rfl
  rw [filter_json_200 (mkSchema l) l h200 hd, h]
  rfl

theorem length_filter_split (p : Json → Bool) (l : List Json) :
    (l.filter p).length + (l.filter (fun x => !p x)).length = l.length := by
  induction l with
  | nil => rfl
  | cons a t ih =>
    cases hp : p a <;> simp [List.filter_cons, hp] <;> omega

@[simp]
theorem pyExceptBind_ok {α β : Type} (a : α) (f : α → Except PyExc β) :
    Except.bind (.ok a) f = f a := rfl

@[simp]
theorem pyExceptBind_error {α β : Type} (e : PyExc) (f : α → Except PyExc β) :
    Except.bind (.error e) f = .error e := rfl

theorem asStrings_map_str (ss : List String) :
    asStrings (ss.map Json.str) = .ok ss := by
  induction ss with
  | nil => rfl
  | cons s t ih => simp [asStrings, ih]

theorem pyJoin_map_str (ss : List String) :
    pyJoin " " (.arr (ss.map Json.str)) = .ok (joinSep " " ss) := by
  simp [pyJoin, asStrings_map_str]

/-- Claim C1, counterexample: the spec's own worked example record named
"Test Hotel" (with a well-formed address) is KEPT by `filter_json`, not
excluded: the forbidden-name comparison is performed on the raw name, so
mixed-case "Test Hotel" does not contain "TEST". -/
theorem c1_test_hotel_is_kept :
    filter_json envSpecExample =
      .ok (mkSchema [testHotelRecord, grandPlazaRecord], mkSchema []) ∧
    keepHotel testHotelRecord = .ok true := ⟨rfl, rfl⟩

/-- Claim C1 (amended): for a record with a string `name` and an
`address.lines` list of strings, `filter_json` keeps it iff the RAW
(case-sensitive) name contains none of TEST/PROPERTY/VALIDATION, the raw
space-joined lines contain neither TEST nor ADDRESS, and the LOWERCASED
name does not contain "house of travel" (only this last check is
case-insensitive); name presence, not non-emptiness, is required. -/
theorem c1_keepHotel_case_sensitive (fs afs : List (String × Json))
    (nm : String) (lines : List String)
    (hn : fs.lookup "name" = some (.str nm))
    (ha : fs.lookup "address" = some (.obj afs))
    (hl : afs.lookup "lines" = some (.arr (lines.map Json.str))) :
    keepHotel (.obj fs) = .ok (
      !(forbidden_name_words.any (fun w => strContains nm w)) &&
      !(forbidden_address_words.any (fun w => strContains (joinSep " " lines) w)) &&
      !(strContains (lowerStr nm) "house of travel")) := by
  simp [keepHotel, pyContains, pyIndex, hn, ha, hl, pyAnyContains_str,
    pyJoin_map_str, pyLower]

/-- Claim C1, witness: the characterization evaluated on the
"Test Hotel" record of the spec's example. -/
theorem c1_keepHotel_case_sensitive_witness :
    keepHotel testHotelRecord = .ok (
      !(forbidden_name_words.any (fun w => strContains "Test Hotel" w)) &&
      !(forbidden_address_words.any (fun w => strContains (joinSep " " ["1 Main St"]) w)) &&
      !(strContains (lowerStr "Test Hotel") "house of travel")) :=
  c1_keepHotel_case_sensitive
    [("name", .str "Test Hotel"),
     ("address", .obj [("lines", .arr [.str "1 Main St"])])]
    [("lines", .arr [.str "1 Main St"])] "Test Hotel" ["1 Main St"]
    rfl rfl rfl

/-- Claim C4, counterexample: an input envelope with an extra top-level
field `extra` is NOT mirrored: the output is always the fixed
`json_schema` envelope, which lacks the field. -/
theorem c4_extra_field_dropped :
    filter_json envExtraField = .ok (json_schema, json_schema) ∧
    pyGet envExtraField "extra" .null = .ok (.num 1) ∧
    pyGet json_schema "extra" .null = .ok .null := ⟨rfl, rfl, rfl⟩

/-- Claim C4 (amended): on a status-200 envelope the filtered output is
always the FIXED envelope `{"status": 200, "response": {"data": kept}}`
(input top-level fields are not carried over), where `kept` is the
order-preserving filtered subset of the input records. -/
theorem c4_output_fixed_schema (env : Json) (hs : List Json) (f n : Json)
    (h200 : envStatusIs200 env = .ok true) (hd : envData env = .ok hs)
    (hf : filter_json env = .ok (f, n)) :
    f = mkSchema (hs.filter keepB) ∧ List.Sublist (hs.filter keepB) hs := by
  rw [filter_json_200 env hs h200 hd] at hf
  cases hr : filterRecords hs with
  | error e => rw [hr] at hf; simp at hf
  | ok p =>
    obtain ⟨ks, ns⟩ := p
    rw [hr] at hf
    simp at hf
    obtain ⟨hk, -⟩ := filterRecords_ok hs ks ns hr
    exact ⟨hf.1.symm.trans (by rw [hk]), hk ▸ List.filter_sublist hs⟩

/-- Claim C4, witness: the fixed-schema theorem evaluated on the spec's
worked example envelope. -/
theorem c4_output_fixed_schema_witness :
    mkSchema [testHotelRecord, grandPlazaRecord] =
      mkSchema (([testHotelRecord, grandPlazaRecord]).filter keepB) ∧
    List.Sublist (([testHotelRecord, grandPlazaRecord]).filter keepB)
      [testHotelRecord, grandPlazaRecord] :=
  c4_output_fixed_schema envSpecExample [testHotelRecord, grandPlazaRecord]
    (mkSchema [testHotelRecord, grandPlazaRecord]) (mkSchema []) rfl rfl rfl

/-- Claim C5, counterexample: `filter_json` is not total — a record whose
address lines contain a number makes `" ".join` raise TypeError instead
of being excluded. -/
theorem c5_filter_raises_on_nonstring_line :
    filter_json envBadLine =
      .error (.typeError "sequence item: expected str instance") := rfl

/-- Claim C5 (amended): on well-typed records (dict; `name` a string if
present; `address` a dict if present; `lines` a list of strings if
present) `keepHotel` never raises, and records missing `name`, missing
`address`, or missing `address.lines` are excluded (kept = false) rather
than erroring. On ill-typed records the filter can raise, and the Python
function also reads and writes files as a side effect. -/
theorem c5_keepHotel_total_on_well_typed (fs : List (String × Json))
    (hwt : wellTypedRecord (.obj fs) = true) :
    (∃ b, keepHotel (.obj fs) = .ok b) ∧
    (fs.lookup "name" = none → keepHotel (.obj fs) = .ok false) ∧
    (fs.lookup "address" = none → keepHotel (.obj fs) = .ok false) ∧
    (∀ afs, fs.lookup "address" = some (.obj afs) →
      afs.lookup "lines" = none → keepHotel (.obj fs) = .ok false) := by
  simp only [wellTypedRecord, Bool.and_eq_true] at hwt
  obtain ⟨hwn, hwa⟩ := hwt
  cases hn : fs.lookup "name" with
  | some v =>
    rw [hn] at hwn
    cases v with
    | str nm =>
      cases hadd : fs.lookup "address" with
      | none =>
        have hk : keepHotel (.obj fs) = .ok false := by
          simp [keepHotel, pyContains, pyIndex, hn, hadd, pyAnyContains_str, pyLower]
        refine ⟨⟨false, hk⟩, ?_, fun _ => hk, ?_⟩
        · intro h; simp at h
        · intro afs' ha'; simp at ha'
      | some a =>
        rw [hadd] at hwa
        cases a with
        | obj afs =>
          dsimp only at hwa
          cases hl : afs.lookup "lines" with
          | none =>
            have hk : keepHotel (.obj fs) = .ok false := by
              simp [keepHotel, pyContains, pyIndex, hn, hadd, hl,
                pyAnyContains_str, pyLower]
            refine ⟨⟨false, hk⟩, ?_, ?_, fun afs' ha' hl' => hk⟩
            · intro h; simp at h
            · intro h; simp at h
          | some lv =>
            rw [hl] at hwa
            cases lv with
            | arr ls =>
              dsimp only at hwa
              obtain ⟨ss, hss, -⟩ := asStrings_of_all_str ls hwa
              subst hss
              have hk : keepHotel (.obj fs) = .ok
                  (!(forbidden_name_words.any (fun w => strContains nm w)) &&
                   !(forbidden_address_words.any
                      (fun w => strContains (joinSep " " ss) w)) &&
                   !(strContains (lowerStr nm) "house of travel")) := by
                simp [keepHotel, pyContains, pyIndex, hn, hadd, hl,
                  pyAnyContains_str, pyJoin_map_str, pyLower]
              refine ⟨⟨_, hk⟩, ?_, ?_, ?_⟩
              · intro h; simp at h
              · intro h; simp at h
              · intro afs' ha' hl'
                cases ha'
                simp [hl] at hl'
            | null => cases hwa
            | bool b => cases hwa
            | num m => cases hwa
            | str s => cases hwa
            | obj o => cases hwa
        | null => cases hwa
        | bool b => cases hwa
        | num m => cases hwa
        | str s => cases hwa
        | arr xs => cases hwa
    | null => cases hwn
    | bool b => cases hwn
    | num m => cases hwn
    | arr xs => cases hwn
    | obj o => cases hwn
  | none =>
    cases hadd : fs.lookup "address" with
    | none =>
      have hk : keepHotel (.obj fs) = .ok false := by
        simp [keepHotel, pyContains, pyIndex, hn, hadd]
      refine ⟨⟨false, hk⟩, fun _ => hk, fun _ => hk, ?_⟩
      intro afs' ha'; simp at ha'
    | some a =>
      rw [hadd] at hwa
      cases a with
      | obj afs =>
        dsimp only at hwa
        cases hl : afs.lookup "lines" with
        | none =>
          have hk : keepHotel (.obj fs) = .ok false := by
            simp [keepHotel, pyContains, pyIndex, hn, hadd, hl]
          refine ⟨⟨false, hk⟩, fun _ => hk, ?_, fun afs' ha' hl' => hk⟩
          intro h; simp at h
        | some lv =>
          rw [hl] at hwa
          cases lv with
          | arr ls =>
            dsimp only at hwa
            obtain ⟨ss, hss, -⟩ := asStrings_of_all_str ls hwa
            subst hss
            have hk : keepHotel (.obj fs) = .ok false := by
              simp [keepHotel, pyContains, pyIndex, hn, hadd, hl,
                pyJoin_map_str]
            refine ⟨⟨false, hk⟩, fun _ => hk, ?_, ?_⟩
            · intro h; simp at h
            · intro afs' ha' hl'
              cases ha'
              simp [hl] at hl'
          | null => cases hwa
          | bool b => cases hwa
          | num m => cases hwa
          | str s => cases hwa
          | obj o => cases hwa
      | null => cases hwa
      | bool b => cases hwa
      | num m => cases hwa
      | str s => cases hwa
      | arr xs => cases hwa

/-- Claim C5, witness: the totality theorem evaluated on a well-typed
record that has an address but no name. -/
theorem c5_keepHotel_total_on_well_typed_witness :
    (∃ b, keepHotel (.obj [("address", .obj [("lines", .arr [.str "x"])])]) = .ok b) ∧
    (([(("address" : String), Json.obj [("lines", .arr [.str "x"])])]).lookup "name" = none →
      keepHotel (.obj [("address", .obj [("lines", .arr [.str "x"])])]) = .ok false) ∧
    (([(("address" : String), Json.obj [("lines", .arr [.str "x"])])]).lookup "address" = none →
      keepHotel (.obj [("address", .obj [("lines", .arr [.str "x"])])]) = .ok false) ∧
    (∀ afs, ([(("address" : String), Json.obj [("lines", .arr [.str "x"])])]).lookup "address" = some (.obj afs) →
      afs.lookup "lines" = none →
      keepHotel (.obj [("address", .obj [("lines", .arr [.str "x"])])]) = .ok false) :=
  c5_keepHotel_total_on_well_typed
    [("address", .obj [("lines", .arr [.str "x"])])] rfl

/-- Claim C2 (code bug): on an HTTP-200 upstream response,
`list_hotels_helper` calls `filter_json(data)` with the parsed JSON
dict, but `filter_json` opens its argument as a file path, so the call
raises TypeError on the first attempt (TypeError is not retried) instead
of returning the `{status: 200, response: filtered}` envelope — and even
a non-raising call would yield `None`, since `filter_json` returns
nothing. -/
theorem c2_status_200_raises_type_error :
    list_hotels_helper_retried
        (fun _ => ⟨200, .obj [("status", .num 200), ("response", .obj [("data", .arr [])])]⟩) =
      (.error (.typeError "expected str, bytes or os.PathLike object, not dict"), 1) := rfl

/-- Claim C3 (code bug): with an empty cache and the identity endpoint
answering HTTP 500 on every attempt, `get_access_token` raises fastapi
`HTTPException(500)`, which the retry predicate
`retry_if_exception_type(httpx.HTTPStatusError)` does not match — so the
call fails after exactly 1 attempt, not 3. -/
theorem c3_token_500_fails_after_one_attempt :
    get_access_token_retried emptyTokenCache 0 (fun _ => ⟨500, .null⟩) =
      (.error (.httpException 500 "Failed to get access token"), 1) := rfl

/-- Claim C6: an upstream search status of 400 or 404 yields the
non-error envelope `{status: code, response: {title: "NO HOTELS FOUND
FOR REQUESTED LOCATION"}}` on the first attempt, with no exception. -/
theorem c6_empty_result_status (s : Nat) (body : Json)
    (hs : s = 400 ∨ s = 404) :
    list_hotels_helper_retried (fun _ => ⟨s, body⟩) =
      (.ok (some (.obj [("status", .num (s : Int)),
        ("response", .obj [("title", .str noHotelsTitle)])])), 1) := by
  rcases hs with h | h <;> subst h <;> rfl

/-- Claim C6, witness: the empty-result envelope at status 404. -/
theorem c6_empty_result_status_witness :
    list_hotels_helper_retried (fun _ => ⟨404, .null⟩) =
      (.ok (some (.obj [("status", .num ((404 : Nat) : Int)),
        ("response", .obj [("title", .str noHotelsTitle)])])), 1) :=
  c6_empty_result_status 404 .null (Or.inr rfl)

/-- Claim C7, counterexample: an upstream status of 204 (neither 200,
400 nor 404) does NOT signal an error — `raise_for_status` accepts any
2xx status, so the helper falls through and returns Python `None`
(a non-envelope value) on the first attempt. -/
theorem c7_status_204_returns_none :
    list_hotels_helper_retried (fun _ => ⟨204, .null⟩) = (.ok none, 1) := rfl

/-- Claim C7 (amended): for statuses outside the 2xx range other than
400/404, the helper raises `httpx.HTTPStatusError` carrying the upstream
status and body, and after 3 attempts tenacity wraps the last one in
`RetryError`; for 2xx statuses other than 200 the helper silently
returns `None`. -/
theorem c7_non_success_statuses (s : Nat) (body : Json)
    (h400 : s ≠ 400) (h404 : s ≠ 404) (h200 : s ≠ 200) :
    (¬(200 ≤ s ∧ s ≤ 299) →
      list_hotels_helper_retried (fun _ => ⟨s, body⟩) =
        (.error (.retryError (.httpStatusError s body)), 3)) ∧
    ((200 ≤ s ∧ s ≤ 299) →
      list_hotels_helper_retried (fun _ => ⟨s, body⟩) = (.ok none, 1)) := by
  constructor
  · intro h2xx
    have honce : list_hotels_helper_once ⟨s, body⟩ =
        .error (.httpStatusError s body) := by
      simp [list_hotels_helper_once, h400, h404, h200, h2xx]
    simp [list_hotels_helper_retried, tenacityRetry, tenacityGo, honce,
      isRetryableExc]
  · intro h2xx
    have honce : list_hotels_helper_once ⟨s, body⟩ = .ok none := by
      simp [list_hotels_helper_once, h400, h404, h200, h2xx]
    simp [list_hotels_helper_retried, tenacityRetry, tenacityGo, honce]

/-- Claim C7, witness: a constant HTTP 500 exhausts the 3 attempts and
surfaces `RetryError` wrapping the `HTTPStatusError` with status and
body. -/
theorem c7_non_success_statuses_witness :
    list_hotels_helper_retried (fun _ => ⟨500, .null⟩) =
      (.error (.retryError (.httpStatusError 500 .null)), 3) :=
  (c7_non_success_statuses 500 .null (by decide) (by decide) (by decide)).1
    (by decide)

/-- Claim C8: while the cached token is truthy and its expiry is
strictly after `now`, `get_access_token` returns the cached token with
zero token requests (so two calls inside the window return the same
token); once `now` reaches the expiry, the next call issues exactly one
token request and re-populates the cache with the fresh token and expiry
`now + expires_in - 60`. -/
theorem c8_token_cache_behavior (cache : TokenCache) (e now₁ now₂ now₃ : Int)
    (resps₁ resps₂ : Nat → HTTPResponse) (resp₃ : HTTPResponse)
    (fs : List (String × Json)) (t : String) (n : Int)
    (htok : pyTruthy cache.token = true)
    (hexp : cache.expires_at = some e)
    (h1 : now₁ < e) (h2 : now₂ < e) (h3 : ¬ now₃ < e)
    (hst : resp₃.status_code = 200)
    (hbody : resp₃.body = .obj fs)
    (hacc : fs.lookup "access_token" = some (.str t))
    (hin : fs.lookup "expires_in" = some (.num n)) :
    get_access_token_retried cache now₁ resps₁ = (.ok (cache.token, cache, 0), 1) ∧
    get_access_token_retried cache now₂ resps₂ = (.ok (cache.token, cache, 0), 1) ∧
    get_access_token_retried cache now₃ (fun _ => resp₃) =
      (.ok (.str t, ⟨.str t, some (now₃ + (n - 60))⟩, 1), 1) := by
  have hcached : ∀ (now : Int) (resp : HTTPResponse), now < e →
      get_access_token_once cache now resp = .ok (cache.token, cache, 0) := by
    intro now resp hlt
    simp [get_access_token_once, htok, hexp, hlt]
  have hfetch : get_access_token_once cache now₃ resp₃ =
      .ok (.str t, ⟨.str t, some (now₃ + (n - 60))⟩, 1) := by
    simp [get_access_token_once, htok, hexp, h3, fetchToken, hst, hbody,
      pyIndex, hacc, pyGet, hin, pyToSeconds]
  refine ⟨?_, ?_, ?_⟩ <;>
    simp [get_access_token_retried, tenacityRetry, tenacityGo,
      hcached _ _ h1, hcached _ _ h2, hfetch]

/-- Claim C8, witness: the cache behavior evaluated on a concrete cache
holding "tok" until time 100, at times 0, 1 and 100. -/
theorem c8_token_cache_behavior_witness :
    get_access_token_retried validCacheExample 0 (fun _ => ⟨500, .null⟩) =
      (.ok (validCacheExample.token, validCacheExample, 0), 1) ∧
    get_access_token_retried validCacheExample 1 (fun _ => ⟨500, .null⟩) =
      (.ok (validCacheExample.token, validCacheExample, 0), 1) ∧
    get_access_token_retried validCacheExample 100 (fun _ => tokenRespExample) =
      (.ok (.str "fresh", ⟨.str "fresh", some (100 + (1799 - 60))⟩, 1), 1) :=
  c8_token_cache_behavior validCacheExample 100 0 1 100
    (fun _ => ⟨500, .null⟩) (fun _ => ⟨500, .null⟩) tokenRespExample
    [("access_token", .str "fresh"), ("expires_in", .num 1799)] "fresh" 1799
    (by decide) rfl (by decide) (by decide) (by decide) rfl rfl rfl rfl

/-- Claim C9: the listing filter is idempotent — whenever `filter_json`
succeeds on an envelope, running it again on the filtered output leaves
the output unchanged (and neglects nothing). -/
theorem c9_filter_json_idempotent (env f n : Json)
    (h : filter_json env = .ok (f, n)) :
    filter_json f = .ok (f, json_schema) := by
  cases hst : envStatusIs200 env with
  | error e =>
    unfold filter_json at h
    rw [hst] at h
    simp at h
  | ok b =>
    cases b with
    | false =>
      rw [filter_json_not200 env hst] at h
      simp at h
      obtain ⟨h1, -⟩ := h
      subst h1
      rfl
    | true =>
      cases hd : envData env with
      | error e =>
        unfold filter_json at h
        rw [hst] at h
        simp at h
        rw [hd] at h
        simp at h
      | ok hs =>
        rw [filter_json_200 env hs hst hd] at h
        cases hr : filterRecords hs with
        | error e => rw [hr] at h; simp at h
        | ok p =>
          obtain ⟨ks, ns⟩ := p
          rw [hr] at h
          simp at h
          obtain ⟨h1, -⟩ := h
          subst h1
          obtain ⟨hk, -⟩ := filterRecords_ok hs ks ns hr
          have hall : ∀ x ∈ ks, keepHotel x = .ok true := by
            intro x hx
            rw [hk] at hx
            exact keepB_eq_true.mp (List.of_mem_filter hx)
          have := filter_json_mkSchema ks ks [] (filterRecords_all_kept ks hall)
          exact this

/-- Claim C9, witness: idempotence evaluated on the spec's worked
example envelope. -/
theorem c9_filter_json_idempotent_witness :
    filter_json (mkSchema [testHotelRecord, grandPlazaRecord]) =
      .ok (mkSchema [testHotelRecord, grandPlazaRecord], json_schema) :=
  c9_filter_json_idempotent envSpecExample
    (mkSchema [testHotelRecord, grandPlazaRecord]) (mkSchema []) rfl

/-- Claim C10: on a status-200 envelope, the filtering pass partitions
the input records — the kept list is exactly the stable filter by
`keepB`, the neglected list exactly its complement, their lengths sum to
the input length, and every input record lands in exactly one of the two
lists according to its `keepB` verdict. -/
theorem c10_filter_json_partitions (env : Json) (hs : List Json) (f n : Json)
    (h200 : envStatusIs200 env = .ok true) (hd : envData env = .ok hs)
    (hf : filter_json env = .ok (f, n)) :
    f = mkSchema (hs.filter keepB) ∧
    n = mkSchema (hs.filter (fun r => !keepB r)) ∧
    (hs.filter keepB).length + (hs.filter (fun r => !keepB r)).length = hs.length ∧
    ∀ r ∈ hs, (keepB r = true ∧ r ∈ hs.filter keepB) ∨
      (keepB r = false ∧ r ∈ hs.filter (fun x => !keepB x)) := by
  rw [filter_json_200 env hs h200 hd] at hf
  cases hr : filterRecords hs with
  | error e => rw [hr] at hf; simp at hf
  | ok p =>
    obtain ⟨ks, ns⟩ := p
    rw [hr] at hf
    simp at hf
    obtain ⟨hf1, hf2⟩ := hf
    obtain ⟨hk, hn⟩ := filterRecords_ok hs ks ns hr
    refine ⟨hf1.symm.trans (by rw [hk]), hf2.symm.trans (by rw [hn]),
      length_filter_split keepB hs, ?_⟩
    intro r hmem
    cases hkb : keepB r with
    | true => exact Or.inl ⟨rfl, List.mem_filter.mpr ⟨hmem, hkb⟩⟩
    | false =>
      exact Or.inr ⟨rfl, List.mem_filter.mpr ⟨hmem, by simp [hkb]⟩⟩

/-- Claim C10, witness: the partition evaluated on the spec's worked
example envelope (both records are kept, none neglected). -/
theorem c10_filter_json_partitions_witness :
    mkSchema [testHotelRecord, grandPlazaRecord] =
      mkSchema (([testHotelRecord, grandPlazaRecord]).filter keepB) ∧
    mkSchema [] =
      mkSchema (([testHotelRecord, grandPlazaRecord]).filter (fun r => !keepB r)) ∧
    (([testHotelRecord, grandPlazaRecord]).filter keepB).length +
      (([testHotelRecord, grandPlazaRecord]).filter (fun r => !keepB r)).length = 2 ∧
    ∀ r ∈ [testHotelRecord, grandPlazaRecord],
      (keepB r = true ∧ r ∈ ([testHotelRecord, grandPlazaRecord]).filter keepB) ∨
      (keepB r = false ∧ r ∈ ([testHotelRecord, grandPlazaRecord]).filter (fun x => !keepB x)) :=
  c10_filter_json_partitions envSpecExample [testHotelRecord, grandPlazaRecord]
    (mkSchema [testHotelRecord, grandPlazaRecord]) (mkSchema []) rfl rfl rfl
